import Mathlib

/-!
Shallow embedding of the KKNT5 business-registry application.

The application has two modules, both in `src/lib/supabase.ts`:

* a record store `umkmService` over `UMKM` business profiles, with a
  remote relational backend (Supabase) when configured and a
  browser-local storage fallback otherwise; and
* a session layer (`AuthProvider`) with `login`, `register`, `logout`
  and `changePassword` over locally stored users.

Pure data and control flow are translated directly from the source.
Page-level UI, styling and the React context wiring are not modelled.
Browser `localStorage` blobs become explicit values threaded through the
operations; `Math.random()` draws become an explicit stream `r : Nat → Nat`
of nibbles; clock reads (`Date.now()`, `new Date().toISOString()`) become
explicit string parameters.

The remote backend itself is external to the repository.  Its
request/response behaviour is modelled from the specification's
external-interface description (select/filter/order, insert returning the
row, update returning the row, delete) with PostgREST semantics for
`.single()` (error unless exactly one row) and for `.delete()` (no error
when zero rows match).  A backend-reported failure is injected through an
explicit `Option String` parameter on each remote call.
-/

/- ---------- JS value helpers ---------- -/

/-- Truthiness of a JS string-or-undefined value: `undefined`, `null` and
the empty string are falsy. -/
def truthy : Option String → Bool
  | some s => !s.isEmpty
  | none => false

/-- JS `a || b` for a string-or-undefined `a` with string default `b`. -/
def jsOr : Option String → String → String
  | some s, d => if s.isEmpty then d else s
  | none, d => d

/- ---------- UUID helpers (lines 51-75 of the source) ---------- -/

/-- Lowercase hex digit for a nibble, as produced by JS `v.toString(16)`. -/
def hexChar (n : Nat) : Char :=
  if n < 10 then Char.ofNat (48 + n) else Char.ofNat (97 + (n - 10))

/-- One character class `[0-9a-fA-F]` of the UUID regex. -/
def isHexDigit (c : Char) : Bool :=
  decide ('0' ≤ c ∧ c ≤ '9') || decide ('a' ≤ c ∧ c ≤ 'f') || decide ('A' ≤ c ∧ c ≤ 'F')

/-- Consume exactly `n` hex digits from the front of a char list. -/
def hexRun : Nat → List Char → Option (List Char)
  | 0, cs => some cs
  | _ + 1, [] => none
  | n + 1, c :: cs => if isHexDigit c then hexRun n cs else none

/-- Consume one literal dash. -/
def expectDash : List Char → Option (List Char)
  | '-' :: cs => some cs
  | _ => none

/-- The source's `isValidUUID`: an anchored, case-insensitive match of
`[0-9a-f]{8}-[0-9a-f]{4}-[0-9a-f]{4}-[0-9a-f]{4}-[0-9a-f]{12}`. -/
def isValidUUID (s : String) : Bool :=
  decide (((((((((hexRun 8 s.data).bind expectDash).bind (hexRun 4)).bind expectDash).bind
      (hexRun 4)).bind expectDash).bind (hexRun 4)).bind expectDash).bind (hexRun 12) = some [])

/-- The replacement pass of the source's `generateUUID` over the template
`"xxxxxxxx-xxxx-4xxx-yxxx-xxxxxxxxxxxx"`: each `x` becomes a random
nibble, each `y` becomes `(r & 0x3) | 0x8`; other characters are copied.
`i` counts the random draws consumed so far. -/
def genChars (r : Nat → Nat) : List Char → Nat → List Char
  | [], _ => []
  | c :: cs, i =>
    if c = 'x' then hexChar (r i % 16) :: genChars r cs (i + 1)
    else if c = 'y' then hexChar (r i % 16 &&& 3 ||| 8) :: genChars r cs (i + 1)
    else c :: genChars r cs i

/-- The source's `generateUUID` (UUID v4), fed by the nibble stream `r`. -/
def generateUUID (r : Nat → Nat) : String :=
  String.mk (genChars r "xxxxxxxx-xxxx-4xxx-yxxx-xxxxxxxxxxxx".data 0)

/-- The source's `ensureValidUUID`: keep a valid UUID, otherwise generate
a fresh one. -/
def ensureValidUUID (id : String) (r : Nat → Nat) : String :=
  if isValidUUID id then id else generateUUID r

/- ---------- Users (AuthProvider data model) ---------- -/

/-- Role of a user: `"admin" | "user"` in the source. -/
inductive Role where
  | admin
  | user
  deriving DecidableEq, Repr

/-- An entry of the `registered_users` localStorage blob, as written by
`register` (and mutated by `changePassword` / `login`).  These entries
carry the plaintext password. -/
structure StoredUser where
  id : String
  username : String
  password : String
  name : String
  role : Role
  rw : String
  created_at : String
  last_password_change : Option String := none
  deriving DecidableEq, Repr

/-- The `User` interface of the source: what is stored in the `auth_user`
slot (the current session).  Registered users appear here with the
password field stripped. -/
structure SessionUser where
  id : String
  username : String
  name : String
  role : Role
  rw : Option String := none
  created_at : Option String := none
  must_change_password : Option Bool := none
  last_password_change : Option String := none
  deriving DecidableEq, Repr

/-- Strip the password from a registry entry, as in
`const { password: _, ...userWithoutPassword } = foundUser`. -/
def StoredUser.toSession (u : StoredUser) : SessionUser :=
  { id := u.id, username := u.username, name := u.name, role := u.role,
    rw := some u.rw, created_at := some u.created_at,
    must_change_password := none, last_password_change := u.last_password_change }

/- ---------- UMKM record (lines 21-49 of the source) ---------- -/

/-- The `UMKM` interface.  Numeric (`number`) columns are carried opaquely
as `Int`; no operation in the source computes with them. -/
structure UMKM where
  id : Option String := none
  nama_usaha : String
  pemilik : String
  nik_pemilik : Option String := none
  no_hp : Option String := none
  alamat_usaha : Option String := none
  jenis_usaha : String
  kategori_usaha : Option String := none
  deskripsi_usaha : Option String := none
  produk : Option String := none
  kapasitas_produksi : Option Int := none
  satuan_produksi : Option String := none
  periode_operasi : Option Int := none
  satuan_periode : Option String := none
  hari_kerja_per_minggu : Option Int := none
  total_produksi : Option Int := none
  rab : Option Int := none
  biaya_tetap : Option Int := none
  biaya_variabel : Option Int := none
  modal_awal : Option Int := none
  target_pendapatan : Option Int := none
  jumlah_karyawan : Option Int := none
  status : String
  tanggal_daftar : Option String := none
  created_at : Option String := none
  updated_at : Option String := none
  user_id : Option String := none
  deriving DecidableEq, Repr

/-- The `create` payload `Omit<UMKM, "id" | "created_at" | "updated_at">`. -/
structure CreatePayload where
  nama_usaha : String
  pemilik : String
  nik_pemilik : Option String := none
  no_hp : Option String := none
  alamat_usaha : Option String := none
  jenis_usaha : String
  kategori_usaha : Option String := none
  deskripsi_usaha : Option String := none
  produk : Option String := none
  kapasitas_produksi : Option Int := none
  satuan_produksi : Option String := none
  periode_operasi : Option Int := none
  satuan_periode : Option String := none
  hari_kerja_per_minggu : Option Int := none
  total_produksi : Option Int := none
  rab : Option Int := none
  biaya_tetap : Option Int := none
  biaya_variabel : Option Int := none
  modal_awal : Option Int := none
  target_pendapatan : Option Int := none
  jumlah_karyawan : Option Int := none
  status : String
  tanggal_daftar : Option String := none
  user_id : Option String := none
  deriving DecidableEq, Repr

/-- Spread a create payload into a full record; the omitted columns are
absent (`undefined`). -/
def CreatePayload.toUMKM (p : CreatePayload) : UMKM :=
  { nama_usaha := p.nama_usaha, pemilik := p.pemilik, nik_pemilik := p.nik_pemilik,
    no_hp := p.no_hp, alamat_usaha := p.alamat_usaha, jenis_usaha := p.jenis_usaha,
    kategori_usaha := p.kategori_usaha, deskripsi_usaha := p.deskripsi_usaha,
    produk := p.produk, kapasitas_produksi := p.kapasitas_produksi,
    satuan_produksi := p.satuan_produksi, periode_operasi := p.periode_operasi,
    satuan_periode := p.satuan_periode, hari_kerja_per_minggu := p.hari_kerja_per_minggu,
    total_produksi := p.total_produksi, rab := p.rab, biaya_tetap := p.biaya_tetap,
    biaya_variabel := p.biaya_variabel, modal_awal := p.modal_awal,
    target_pendapatan := p.target_pendapatan, jumlah_karyawan := p.jumlah_karyawan,
    status := p.status, tanggal_daftar := p.tanggal_daftar, user_id := p.user_id }

/-- The `update` payload `Partial<UMKM>`: every column is optionally
present, and a present column may itself carry `undefined` (`some none`
for the optional columns). -/
structure UpdatePayload where
  id : Option (Option String) := none
  nama_usaha : Option String := none
  pemilik : Option String := none
  nik_pemilik : Option (Option String) := none
  no_hp : Option (Option String) := none
  alamat_usaha : Option (Option String) := none
  jenis_usaha : Option String := none
  kategori_usaha : Option (Option String) := none
  deskripsi_usaha : Option (Option String) := none
  produk : Option (Option String) := none
  kapasitas_produksi : Option (Option Int) := none
  satuan_produksi : Option (Option String) := none
  periode_operasi : Option (Option Int) := none
  satuan_periode : Option (Option String) := none
  hari_kerja_per_minggu : Option (Option Int) := none
  total_produksi : Option (Option Int) := none
  rab : Option (Option Int) := none
  biaya_tetap : Option (Option Int) := none
  biaya_variabel : Option (Option Int) := none
  modal_awal : Option (Option Int) := none
  target_pendapatan : Option (Option Int) := none
  jumlah_karyawan : Option (Option Int) := none
  status : Option String := none
  tanggal_daftar : Option (Option String) := none
  created_at : Option (Option String) := none
  updated_at : Option (Option String) := none
  user_id : Option (Option String) := none
  deriving DecidableEq, Repr

/-- JS object spread `{ ...item, ...payload }`: a key present in the
payload overrides the item's key, even when its value is `undefined`. -/
def mergeUMKM (u : UMKM) (p : UpdatePayload) : UMKM :=
  { id := p.id.getD u.id, nama_usaha := p.nama_usaha.getD u.nama_usaha,
    pemilik := p.pemilik.getD u.pemilik, nik_pemilik := p.nik_pemilik.getD u.nik_pemilik,
    no_hp := p.no_hp.getD u.no_hp, alamat_usaha := p.alamat_usaha.getD u.alamat_usaha,
    jenis_usaha := p.jenis_usaha.getD u.jenis_usaha,
    kategori_usaha := p.kategori_usaha.getD u.kategori_usaha,
    deskripsi_usaha := p.deskripsi_usaha.getD u.deskripsi_usaha,
    produk := p.produk.getD u.produk,
    kapasitas_produksi := p.kapasitas_produksi.getD u.kapasitas_produksi,
    satuan_produksi := p.satuan_produksi.getD u.satuan_produksi,
    periode_operasi := p.periode_operasi.getD u.periode_operasi,
    satuan_periode := p.satuan_periode.getD u.satuan_periode,
    hari_kerja_per_minggu := p.hari_kerja_per_minggu.getD u.hari_kerja_per_minggu,
    total_produksi := p.total_produksi.getD u.total_produksi,
    rab := p.rab.getD u.rab, biaya_tetap := p.biaya_tetap.getD u.biaya_tetap,
    biaya_variabel := p.biaya_variabel.getD u.biaya_variabel,
    modal_awal := p.modal_awal.getD u.modal_awal,
    target_pendapatan := p.target_pendapatan.getD u.target_pendapatan,
    jumlah_karyawan := p.jumlah_karyawan.getD u.jumlah_karyawan,
    status := p.status.getD u.status, tanggal_daftar := p.tanggal_daftar.getD u.tanggal_daftar,
    created_at := p.created_at.getD u.created_at, updated_at := p.updated_at.getD u.updated_at,
    user_id := p.user_id.getD u.user_id }

/-- Set a nullable column from a payload entry as the JSON-serialised
remote update does: a key whose value is `undefined` is dropped by
`JSON.stringify`, so only `some (some v)` writes the column. -/
def sqlSet {α : Type} : Option (Option α) → Option α → Option α
  | some (some v), _ => some v
  | _, old => old

/-- Apply a `Partial<UMKM>` payload to a row as the remote `update` does:
present, non-`undefined` keys overwrite the corresponding columns. -/
def sqlMergeUMKM (u : UMKM) (p : UpdatePayload) : UMKM :=
  { id := sqlSet p.id u.id, nama_usaha := p.nama_usaha.getD u.nama_usaha,
    pemilik := p.pemilik.getD u.pemilik, nik_pemilik := sqlSet p.nik_pemilik u.nik_pemilik,
    no_hp := sqlSet p.no_hp u.no_hp, alamat_usaha := sqlSet p.alamat_usaha u.alamat_usaha,
    jenis_usaha := p.jenis_usaha.getD u.jenis_usaha,
    kategori_usaha := sqlSet p.kategori_usaha u.kategori_usaha,
    deskripsi_usaha := sqlSet p.deskripsi_usaha u.deskripsi_usaha,
    produk := sqlSet p.produk u.produk,
    kapasitas_produksi := sqlSet p.kapasitas_produksi u.kapasitas_produksi,
    satuan_produksi := sqlSet p.satuan_produksi u.satuan_produksi,
    periode_operasi := sqlSet p.periode_operasi u.periode_operasi,
    satuan_periode := sqlSet p.satuan_periode u.satuan_periode,
    hari_kerja_per_minggu := sqlSet p.hari_kerja_per_minggu u.hari_kerja_per_minggu,
    total_produksi := sqlSet p.total_produksi u.total_produksi,
    rab := sqlSet p.rab u.rab, biaya_tetap := sqlSet p.biaya_tetap u.biaya_tetap,
    biaya_variabel := sqlSet p.biaya_variabel u.biaya_variabel,
    modal_awal := sqlSet p.modal_awal u.modal_awal,
    target_pendapatan := sqlSet p.target_pendapatan u.target_pendapatan,
    jumlah_karyawan := sqlSet p.jumlah_karyawan u.jumlah_karyawan,
    status := p.status.getD u.status, tanggal_daftar := sqlSet p.tanggal_daftar u.tanggal_daftar,
    created_at := sqlSet p.created_at u.created_at, updated_at := sqlSet p.updated_at u.updated_at,
    user_id := sqlSet p.user_id u.user_id }

/- ---------- umkmService: local-storage fallback mode ---------- -/

namespace umkmService

/-- Branch of `getAll` taken when Supabase is off (lines 96-106): filter
the stored list by the admin's RW (via the `registered_users` blob) or by
an exact `user_id` match, else return everything as stored. -/
def getAll_local (lsData : List UMKM) (lsUsers : List StoredUser)
    (userId adminRW : Option String) : List UMKM :=
  if truthy adminRW then
    let rwUsers := (lsUsers.filter (fun u => some u.rw == adminRW)).map (fun u => u.id)
    lsData.filter (fun item =>
      match item.user_id with
      | some uid => rwUsers.contains uid
      | none => false)
  else if truthy userId then
    lsData.filter (fun item => item.user_id == userId)
  else lsData

/-- Branch of `create` taken when Supabase is off (lines 155-160): coerce
the owner id, assign `Date.now().toString()` as the record id (`nowId`),
and prepend the record to the stored list. -/
def create_local (lsData : List UMKM) (payload : CreatePayload) (userId : String)
    (r : Nat → Nat) (nowId : String) : UMKM × List UMKM :=
  let validUserId := ensureValidUUID userId r
  let dataWithUser := { payload.toUMKM with user_id := some validUserId }
  let newItem := { dataWithUser with id := some nowId }
  (newItem, newItem :: lsData)

/-- Branch of `update` taken when Supabase is off (lines 184-191): find
the record matching both id and owner, throw when there is none, else
spread the payload over it in place. -/
def update_local (lsData : List UMKM) (id : String) (payload : UpdatePayload)
    (userId : String) : Except String (UMKM × List UMKM) :=
  let i := lsData.findIdx (fun u => u.id == some id && u.user_id == some userId)
  if h : i < lsData.length then
    let item := lsData.get ⟨i, h⟩
    let updated := mergeUMKM item payload
    Except.ok (updated, lsData.set i updated)
  else Except.error "Data tidak ditemukan atau tidak memiliki akses"

/-- Branch of `delete` taken when Supabase is off (lines 223-231): drop
the records matching both id and owner; throw when nothing was dropped. -/
def delete_local (lsData : List UMKM) (id userId : String) :
    Except String (Bool × List UMKM) :=
  let filteredList := lsData.filter (fun u => !(u.id == some id && u.user_id == some userId))
  if filteredList.length = lsData.length then
    Except.error "Data tidak ditemukan atau tidak memiliki akses"
  else Except.ok (true, filteredList)

/-- Branch of `getById` taken when Supabase is off (lines 256-261). -/
def getById_local (lsData : List UMKM) (id : String) (userId : Option String) :
    Option UMKM :=
  let item := lsData.find? (fun u => u.id == some id)
  match item, userId with
  | some it, some uid =>
      if !uid.isEmpty && it.user_id != some uid then none else some it
  | _, _ => item

/- ---------- umkmService: remote (Supabase) mode ---------- -/

/-- State of the remote backend: the `umkm` table and the `users` table. -/
structure RemoteDB where
  umkm : List UMKM
  users : List StoredUser
  deriving DecidableEq, Repr

/-- The backend's `order("created_at", { ascending: false })`: rows sorted
by creation timestamp, newest first (absent timestamps sort last). -/
def sbOrderCreatedDesc (l : List UMKM) : List UMKM :=
  l.mergeSort (fun a b => decide (b.created_at.getD "" ≤ a.created_at.getD ""))

/-- Branch of `getAll` taken against the remote backend (lines 108-142).
`failUsers` and `failMain` inject a backend error into the users-by-RW
query and the main query respectively; any backend error is absorbed and
reported as an empty list. -/
def getAll_remote (db : RemoteDB) (failUsers failMain : Option String)
    (userId adminRW : Option String) : List UMKM :=
  if truthy adminRW then
    match failUsers with
    | some _ => []
    | none =>
      let rwUsers := (db.users.filter (fun u => some u.rw == adminRW)).map (fun u => u.id)
      if rwUsers.length > 0 then
        match failMain with
        | some _ => []
        | none =>
          (sbOrderCreatedDesc db.umkm).filter (fun item =>
            match item.user_id with
            | some uid => rwUsers.contains uid
            | none => false)
      else []
  else if truthy userId && !isValidUUID (userId.getD "") then []
  else
    match failMain with
    | some _ => []
    | none =>
      let base := sbOrderCreatedDesc db.umkm
      if truthy userId then base.filter (fun item => item.user_id == userId) else base

/-- Branch of `create` taken against the remote backend (lines 162-177):
insert the payload (with coerced owner id and defaulted `tanggal_daftar`)
and return the inserted row; a backend error is re-thrown.  `srvId` and
`srvCreated` are the server-assigned id and creation timestamp. -/
def create_remote (db : RemoteDB) (fail : Option String) (payload : CreatePayload)
    (userId : String) (r : Nat → Nat) (now srvId srvCreated : String) :
    Except String (UMKM × RemoteDB) :=
  let validUserId := ensureValidUUID userId r
  let dataWithUser := { payload.toUMKM with user_id := some validUserId }
  match fail with
  | some e => Except.error e
  | none =>
    let row := { dataWithUser with
      tanggal_daftar := some (jsOr dataWithUser.tanggal_daftar now),
      id := some srvId, created_at := some srvCreated }
    Except.ok (row, { db with umkm := row :: db.umkm })

/-- Branch of `update` taken against the remote backend (lines 194-216):
reject a malformed owner id before querying, overwrite the columns of the
rows matching both id and owner, and return the single updated row;
`.single()` errors (and the transaction yields no row) unless exactly one
row matched.  A backend error is re-thrown. -/
def update_remote (db : RemoteDB) (fail : Option String) (id : String)
    (payload : UpdatePayload) (userId : String) (now : String) :
    Except String (UMKM × RemoteDB) :=
  if !isValidUUID userId then Except.error "User ID tidak valid untuk operasi Supabase"
  else
    match fail with
    | some e => Except.error e
    | none =>
      let pred := fun (u : UMKM) => u.id == some id && u.user_id == some userId
      let applyUpd := fun (u : UMKM) => { sqlMergeUMKM u payload with updated_at := some now }
      match db.umkm.filter pred with
      | [m] =>
        Except.ok (applyUpd m,
          { db with umkm := db.umkm.map (fun u => if pred u then applyUpd u else u) })
      | _ => Except.error "JSON object requested, multiple (or no) rows returned"

/-- Branch of `delete` taken against the remote backend (lines 233-249):
reject a malformed owner id before querying, then delete the rows
matching both id and owner.  The backend reports no error when zero rows
match, so the operation returns `true` regardless; a backend error is
re-thrown. -/
def delete_remote (db : RemoteDB) (fail : Option String) (id userId : String) :
    Except String (Bool × RemoteDB) :=
  if !isValidUUID userId then Except.error "User ID tidak valid untuk operasi Supabase"
  else
    match fail with
    | some e => Except.error e
    | none =>
      Except.ok (true,
        { db with umkm := db.umkm.filter (fun u => !(u.id == some id && u.user_id == some userId)) })

/-- Branch of `getById` taken against the remote backend (lines 264-285):
a malformed supplied owner id short-circuits to `null`; `.single()`
errors (absorbed to `null`) unless exactly one row matches. -/
def getById_remote (db : RemoteDB) (fail : Option String) (id : String)
    (userId : Option String) : Option UMKM :=
  if truthy userId && !isValidUUID (userId.getD "") then none
  else
    match fail with
    | some _ => none
    | none =>
      let rows := db.umkm.filter (fun u =>
        u.id == some id && (if truthy userId then u.user_id == userId else true))
      match rows with
      | [x] => some x
      | _ => none

end umkmService

/- ---------- Session layer (AuthProvider) ---------- -/

namespace Auth

/-- The `RegisterData` interface of the source. -/
structure RegisterData where
  username : String
  password : String
  name : String
  rw : String
  deriving DecidableEq, Repr

/-- The two predefined privileged accounts (`ADMIN_USERS`). -/
def ADMIN_RW01 : SessionUser :=
  { id := "550e8400-e29b-41d4-a716-446655440001", username := "admin",
    name := "Ketua RW 01", role := Role.admin, rw := some "01",
    created_at := some "2024-01-01T00:00:00Z",
    must_change_password := some true, last_password_change := none }

/-- The second predefined privileged account. -/
def ADMIN_RW04 : SessionUser :=
  { id := "550e8400-e29b-41d4-a716-446655440004", username := "admin",
    name := "Ketua RW 04", role := Role.admin, rw := some "04",
    created_at := some "2024-01-01T00:00:00Z",
    must_change_password := some true, last_password_change := none }

/-- The `ADMIN_USERS` array. -/
def ADMIN_USERS : List SessionUser := [ADMIN_RW01, ADMIN_RW04]

/-- The shared default admin password. -/
def DEFAULT_ADMIN_PASSWORD : String := "admin"

/-- The session layer's localStorage state: the `registered_users` blob,
the `auth_user` slot (current session), and the `admin_passwords` map of
privileged-account id to overridden password. -/
structure AuthState where
  registered_users : List StoredUser
  auth_user : Option SessionUser
  admin_passwords : String → Option String

/-- The registry scan at the end of `login` (lines 456-477): exact
username+password match; a found user whose id is not a well-formed UUID
is rewritten with a fresh one (also in the stored registry) before the
password-stripped identity becomes the session. -/
def loginRegistry (st : AuthState) (username password : String) (r : Nat → Nat) :
    Bool × AuthState :=
  let users := st.registered_users
  let fIdx := users.findIdx (fun u => u.username == username && u.password == password)
  if h : fIdx < users.length then
    let foundUser := users.get ⟨fIdx, h⟩
    if isValidUUID foundUser.id then
      (true, { st with auth_user := some foundUser.toSession })
    else
      let fu := { foundUser with id := generateUUID r }
      let uIdx := users.findIdx (fun u => u.username == username)
      (true, { st with registered_users := (users.set fIdx fu).set uIdx fu,
                       auth_user := some fu.toSession })
  else (false, st)

/-- The source's `login` (lines 412-478).  The interactive RW prompt
becomes the parameter `rwChoice` ("1" selects RW 01, "2" selects RW 04,
anything else aborts). -/
def login (st : AuthState) (username password rwChoice : String) (r : Nat → Nat) :
    Bool × AuthState :=
  if username == "admin" then
    if password == DEFAULT_ADMIN_PASSWORD then
      if rwChoice == "1" || rwChoice == "2" then
        let selectedRW := if rwChoice == "1" then "01" else "04"
        match ADMIN_USERS.find? (fun a => a.rw == some selectedRW) with
        | some adminUser =>
          if truthy (st.admin_passwords adminUser.id) then (false, st)
          else (true, { st with auth_user := some adminUser })
        | none => loginRegistry st username password r
      else (false, st)
    else
      match ADMIN_USERS.find? (fun a =>
          match st.admin_passwords a.id with
          | some cp => !cp.isEmpty && password == cp
          | none => false) with
      | some a =>
        (true, { st with auth_user := some { a with must_change_password := some false } })
      | none => loginRegistry st username password r
  else loginRegistry st username password r

/-- The `newUser` object built by `register`: fresh identifier, plaintext
password, role "user". -/
def newUser (data : RegisterData) (r : Nat → Nat) (now : String) : StoredUser :=
  { id := generateUUID r, username := data.username, password := data.password,
    name := data.name, role := Role.user, rw := data.rw, created_at := now }

/-- The source's `register` (lines 480-506).  `now` is the creation
timestamp; `r` feeds the fresh identifier. -/
def register (st : AuthState) (data : RegisterData) (r : Nat → Nat) (now : String) :
    (Bool × String) × AuthState :=
  if data.username == "admin" then ((false, "Username tidak tersedia"), st)
  else
    match st.registered_users.find? (fun u => u.username == data.username) with
    | some _ => ((false, "Username sudah digunakan"), st)
    | none =>
      ((true, "Registrasi berhasil! Silakan login."),
        { st with registered_users := st.registered_users ++ [newUser data r now] })

/-- The source's `logout` (lines 508-511). -/
def logout (st : AuthState) : AuthState := { st with auth_user := none }

/-- The source's `changePassword` (lines 513-575).  `now` is the
password-change timestamp. -/
def changePassword (st : AuthState) (oldPassword newPassword : String) (now : String) :
    (Bool × String) × AuthState :=
  match st.auth_user with
  | none => ((false, "User tidak ditemukan"), st)
  | some u =>
    if u.role == Role.admin then
      let currentPassword := jsOr (st.admin_passwords u.id) DEFAULT_ADMIN_PASSWORD
      if oldPassword != currentPassword then ((false, "Password lama tidak benar"), st)
      else if newPassword.length < 6 then ((false, "Password baru minimal 6 karakter"), st)
      else if oldPassword == newPassword then
        ((false, "Password baru harus berbeda dari password lama"), st)
      else
        ((true, "Password berhasil diubah"),
          { st with
            admin_passwords := fun k =>
              if k = u.id then some newPassword else st.admin_passwords k,
            auth_user := some { u with must_change_password := some false,
                                       last_password_change := some now } })
    else
      let users := st.registered_users
      let i := users.findIdx (fun ru => ru.id == u.id)
      if h : i < users.length then
        let ru := users.get ⟨i, h⟩
        if oldPassword != ru.password then ((false, "Password lama tidak benar"), st)
        else if newPassword.length < 6 then ((false, "Password baru minimal 6 karakter"), st)
        else if oldPassword == newPassword then
          ((false, "Password baru harus berbeda dari password lama"), st)
        else
          ((true, "Password berhasil diubah"),
            { st with registered_users :=
                users.set i { ru with password := newPassword,
                                      last_password_change := some now } })
      else ((false, "User tidak ditemukan"), st)

/-- One user-visible operation of the session layer. -/
inductive AuthOp where
  | reg (data : RegisterData) (r : Nat → Nat) (now : String)
  | signIn (username password rwChoice : String) (r : Nat → Nat)
  | signOut
  | changePw (oldPassword newPassword now : String)

/-- Apply one operation to the stored state. -/
def step (st : AuthState) : AuthOp → AuthState
  | AuthOp.reg data r now => (register st data r now).2
  | AuthOp.signIn u p c r => (login st u p c r).2
  | AuthOp.signOut => logout st
  | AuthOp.changePw o n t => (changePassword st o n t).2

/-- Run a sequence of operations. -/
def run (st : AuthState) (ops : List AuthOp) : AuthState := ops.foldl step st

/-- The state with an empty registry, no session, and no password
overrides. -/
def initState : AuthState :=
  { registered_users := [], auth_user := none, admin_passwords := fun _ => none }

end Auth

/- ---------- General lemmas about the UUID generator ---------- -/

theorem isHexDigit_hexChar_mod (n : Nat) : isHexDigit (hexChar (n % 16)) = true := by
  have h : n % 16 < 16 := Nat.mod_lt _ (by omega)
  set k := n % 16 with hk
  interval_cases k <;> decide

theorem isHexDigit_hexChar_variant (n : Nat) :
    isHexDigit (hexChar (n % 16 &&& 3 ||| 8)) = true := by
  have h : n % 16 < 16 := Nat.mod_lt _ (by omega)
  set k := n % 16 with hk
  interval_cases k <;> decide

/-- The characters produced by one replacement pass over the UUID
template, spelt out. -/
theorem generateUUID_data (r : Nat → Nat) :
    (generateUUID r).data =
    [hexChar (r 0 % 16), hexChar (r 1 % 16), hexChar (r 2 % 16), hexChar (r 3 % 16),
     hexChar (r 4 % 16), hexChar (r 5 % 16), hexChar (r 6 % 16), hexChar (r 7 % 16), '-',
     hexChar (r 8 % 16), hexChar (r 9 % 16), hexChar (r 10 % 16), hexChar (r 11 % 16), '-',
     '4', hexChar (r 12 % 16), hexChar (r 13 % 16), hexChar (r 14 % 16), '-',
     hexChar (r 15 % 16 &&& 3 ||| 8), hexChar (r 16 % 16), hexChar (r 17 % 16),
     hexChar (r 18 % 16), '-',
     hexChar (r 19 % 16), hexChar (r 20 % 16), hexChar (r 21 % 16), hexChar (r 22 % 16),
     hexChar (r 23 % 16), hexChar (r 24 % 16), hexChar (r 25 % 16), hexChar (r 26 % 16),
     hexChar (r 27 % 16), hexChar (r 28 % 16), hexChar (r 29 % 16), hexChar (r 30 % 16)] := rfl

/-- Whatever the random draws, `generateUUID` produces a string accepted
by `isValidUUID`. -/
theorem isValidUUID_generateUUID (r : Nat → Nat) : isValidUUID (generateUUID r) = true := by
  have h4 : isHexDigit '4' = true := by decide
  simp only [isValidUUID, generateUUID_data]
  simp [hexRun, expectDash, h4, isHexDigit_hexChar_mod, isHexDigit_hexChar_variant]

/-- A generated UUID never coincides with a string the validator
rejects. -/
theorem generateUUID_ne_invalid (r : Nat → Nat) (s : String)
    (hs : isValidUUID s = false) : generateUUID r ≠ s := by
  intro h
  have hv := isValidUUID_generateUUID r
  rw [h, hs] at hv
  exact Bool.false_ne_true hv

/- ---------- Sample data used in concrete instances ---------- -/

/-- The spec's example payload:
`{name:"Toko Bunga", owner:"Budi", type:"Retail", status:"active"}`. -/
def samplePayload : CreatePayload :=
  { nama_usaha := "Toko Bunga", pemilik := "Budi", jenis_usaha := "Retail",
    status := "active" }

/-- A minimal record with a given id, owner and creation timestamp. -/
def mkRec (id uid cr : Option String) : UMKM :=
  { id := id, nama_usaha := "Toko Bunga", pemilik := "Budi", jenis_usaha := "Retail",
    status := "active", user_id := uid, created_at := cr }

/-- A well-formed UUID distinct from the admin ids, for concrete tests. -/
def uuidA : String := "aaaaaaaa-aaaa-4aaa-8aaa-aaaaaaaaaaaa"

/-- A second well-formed UUID, distinct from `uuidA`. -/
def uuidB : String := "bbbbbbbb-bbbb-4bbb-8bbb-bbbbbbbbbbbb"

/- ---------- C3 ---------- -/

/-- C3: `create` coerces the supplied owner identifier.  When `ownerId`
is not a well-formed UUID, `create` succeeds (in local mode
unconditionally; in remote mode whenever the backend reports no error)
and the returned record's `user_id` is the freshly generated UUID, which
is well-formed and differs from the supplied `ownerId`; when `ownerId` is
a well-formed UUID the returned record's `user_id` is `ownerId` itself. -/
theorem create_coerces_owner_uuid (lsData : List UMKM) (db : umkmService.RemoteDB)
    (payload : CreatePayload) (userId : String) (r : Nat → Nat)
    (nowId now srvId srvCreated : String) :
    (isValidUUID userId = false →
      (umkmService.create_local lsData payload userId r nowId).1.user_id
          = some (generateUUID r) ∧
      isValidUUID (generateUUID r) = true ∧
      (umkmService.create_local lsData payload userId r nowId).1.user_id ≠ some userId ∧
      ∀ rec db2,
        umkmService.create_remote db none payload userId r now srvId srvCreated
            = Except.ok (rec, db2) →
        rec.user_id = some (generateUUID r)) ∧
    (isValidUUID userId = true →
      (umkmService.create_local lsData payload userId r nowId).1.user_id = some userId ∧
      ∀ rec db2,
        umkmService.create_remote db none payload userId r now srvId srvCreated
            = Except.ok (rec, db2) →
        rec.user_id = some userId) := by
  constructor
  · intro hbad
    refine ⟨?_, isValidUUID_generateUUID r, ?_, ?_⟩
    · simp [umkmService.create_local, ensureValidUUID, hbad]
    · simp [umkmService.create_local, ensureValidUUID, hbad]
      exact fun h => generateUUID_ne_invalid r userId hbad h
    · intro rec db2 hok
      simp only [umkmService.create_remote, ensureValidUUID, hbad] at hok
      simp at hok
      rw [← hok.1]
  · intro hgood
    constructor
    · simp [umkmService.create_local, ensureValidUUID, hgood]
    · intro rec db2 hok
      simp only [umkmService.create_remote, ensureValidUUID, hgood] at hok
      simp at hok
      rw [← hok.1]

/-- C3 witness: the spec's own example, with the zero nibble stream. -/
theorem create_coerces_owner_uuid_witness :
    isValidUUID "not-a-uuid" = false ∧
    (umkmService.create_local [] samplePayload "not-a-uuid" (fun _ => 0) "123").1.user_id
      = some "00000000-0000-4000-8000-000000000000" := by
  refine ⟨by decide, ?_⟩
  have h := (create_coerces_owner_uuid [] ⟨[], []⟩ samplePayload "not-a-uuid" (fun _ => 0)
      "123" "t" "sid" "cr").1 (by decide)
  rw [h.1]
  rfl

/- ---------- C6 ---------- -/

/-- C6: for every stored state (any session or none) and any string `p`,
`changePassword(p, p)` fails and leaves the whole stored state unchanged:
no password is recorded for any identity. -/
theorem changePassword_same_password_fails (st : Auth.AuthState) (p now : String) :
    (Auth.changePassword st p p now).1.1 = false ∧ (Auth.changePassword st p p now).2 = st := by
  unfold Auth.changePassword
  cases st.auth_user with
  | none => exact ⟨rfl, rfl⟩
  | some u =>
    dsimp only
    by_cases h : (u.role == Role.admin) = true
    · rw [if_pos h]
      split_ifs <;> simp_all
    · rw [if_neg h]
      split
      · split_ifs <;> simp_all
      · exact ⟨rfl, rfl⟩

/- ---------- C1 ---------- -/

/-- C1 counterexample: in remote mode, `delete` with an id that exists
under a different owner and a well-formed mismatched `ownerId` returns
success (`true`) and raises nothing, contradicting the claim that delete
always fails with `NotFoundOrForbidden` in that case. -/
theorem delete_remote_mismatched_owner_no_error :
    umkmService.delete_remote
        { umkm := [mkRec (some "r1") (some uuidA) (some "2024-01-01T00:00:00Z")], users := [] }
        none "r1" uuidB
      = Except.ok (true,
        { umkm := [mkRec (some "r1") (some uuidA) (some "2024-01-01T00:00:00Z")], users := [] }) := by
  rfl

/-- C1 amended: when no stored record matches both id and owner, `update`
fails with a raised error and `delete` fails in local mode — but in
remote mode `delete` only fails when the owner id is malformed, and with
a well-formed mismatched owner id it returns success with the table
unchanged.  In every case no stored record is modified. -/
theorem update_delete_owner_mismatch (lsData : List UMKM) (db : umkmService.RemoteDB)
    (id userId : String) (p : UpdatePayload) (now : String)
    (hls : ∀ u ∈ lsData, ¬(u.id = some id ∧ u.user_id = some userId))
    (hdb : ∀ u ∈ db.umkm, ¬(u.id = some id ∧ u.user_id = some userId)) :
    umkmService.update_local lsData id p userId
        = Except.error "Data tidak ditemukan atau tidak memiliki akses" ∧
    umkmService.delete_local lsData id userId
        = Except.error "Data tidak ditemukan atau tidak memiliki akses" ∧
    (∃ e, umkmService.update_remote db none id p userId now = Except.error e) ∧
    (isValidUUID userId = false →
      umkmService.delete_remote db none id userId
        = Except.error "User ID tidak valid untuk operasi Supabase") ∧
    (isValidUUID userId = true →
      umkmService.delete_remote db none id userId = Except.ok (true, db)) := by
  have hlsF : ∀ u ∈ lsData, (u.id == some id && u.user_id == some userId) = false := by
    intro u hu
    rw [Bool.eq_false_iff]
    intro hT
    simp only [Bool.and_eq_true, beq_iff_eq] at hT
    exact hls u hu hT
  have hdbF : ∀ u ∈ db.umkm, (u.id == some id && u.user_id == some userId) = false := by
    intro u hu
    rw [Bool.eq_false_iff]
    intro hT
    simp only [Bool.and_eq_true, beq_iff_eq] at hT
    exact hdb u hu hT
  refine ⟨?_, ?_, ?_, ?_, ?_⟩
  · have hidx : lsData.findIdx (fun u => u.id == some id && u.user_id == some userId)
        = lsData.length :=
      List.findIdx_eq_length.mpr (by intro x hx; simpa using hlsF x hx)
    simp [umkmService.update_local, hidx]
  · have hfil : lsData.filter (fun u => !(u.id == some id && u.user_id == some userId))
        = lsData :=
      List.filter_eq_self.mpr (by intro x hx; simp [hlsF x hx])
    unfold umkmService.delete_local
    rw [hfil, if_pos rfl]
  · by_cases hv : isValidUUID userId
    · have hfil : db.umkm.filter (fun u => u.id == some id && u.user_id == some userId)
          = [] :=
        List.filter_eq_nil_iff.mpr (by intro x hx; simp [hdbF x hx])
      exact ⟨"JSON object requested, multiple (or no) rows returned",
        by simp [umkmService.update_remote, hv, hfil]⟩
    · exact ⟨"User ID tidak valid untuk operasi Supabase",
        by simp [umkmService.update_remote, hv]⟩
  · intro hv
    simp [umkmService.delete_remote, hv]
  · intro hv
    have hfil : db.umkm.filter (fun u => !(u.id == some id && u.user_id == some userId))
        = db.umkm :=
      List.filter_eq_self.mpr (by intro x hx; simp [hdbF x hx])
    unfold umkmService.delete_remote
    rw [hv]
    rw [if_neg (by decide)]
    dsimp only
    rw [hfil]

/-- C1 witness: a store holding one record owned by `uuidA`, attacked
with owner `uuidB`. -/
theorem update_delete_owner_mismatch_witness :
    (∀ u ∈ [mkRec (some "r1") (some uuidA) none],
        ¬(u.id = some "r1" ∧ u.user_id = some uuidB)) ∧
    umkmService.update_local [mkRec (some "r1") (some uuidA) none] "r1" {} uuidB
        = Except.error "Data tidak ditemukan atau tidak memiliki akses" := by
  refine ⟨by decide, ?_⟩
  exact (update_delete_owner_mismatch [mkRec (some "r1") (some uuidA) none]
    { umkm := [], users := [] } "r1" uuidB {} "now" (by decide) (by decide)).1

/- ---------- C4 ---------- -/

/-- C4 counterexample: in local mode, `getAll` with neither filter
returns the stored list exactly as stored; a store holding an older
record before a newer one comes back in that order, not newest-first. -/
theorem getAll_local_not_sorted_desc :
    ¬ List.Sorted (fun a b : UMKM => b.created_at.getD "" ≤ a.created_at.getD "")
        (umkmService.getAll_local
          [mkRec (some "1") none (some "2024-01-01T00:00:00Z"),
           mkRec (some "2") none (some "2025-01-01T00:00:00Z")] [] none none) := by
  intro h
  simp [umkmService.getAll_local, truthy, mkRec] at h
  exact absurd h (by decide)

/-- C4 amended: with neither filter, remote-mode `getAll` returns every
stored record, sorted newest-first by creation timestamp; local-mode
`getAll` also returns every stored record but exactly in storage order
(it never sorts), an order that `create` maintains newest-first by
prepending each new record. -/
theorem getAll_no_filter_returns_all (db : umkmService.RemoteDB)
    (lsData : List UMKM) (lsUsers : List StoredUser) (failUsers : Option String)
    (payload : CreatePayload) (userId : String) (r : Nat → Nat) (nowId : String) :
    (umkmService.getAll_remote db failUsers none none none).Perm db.umkm ∧
    List.Sorted (fun a b : UMKM => b.created_at.getD "" ≤ a.created_at.getD "")
      (umkmService.getAll_remote db failUsers none none none) ∧
    umkmService.getAll_local lsData lsUsers none none = lsData ∧
    (umkmService.create_local lsData payload userId r nowId).2
      = (umkmService.create_local lsData payload userId r nowId).1 :: lsData := by
  have hremote : umkmService.getAll_remote db failUsers none none none
      = umkmService.sbOrderCreatedDesc db.umkm := by
    simp [umkmService.getAll_remote, truthy]
  refine ⟨?_, ?_, ?_, rfl⟩
  · rw [hremote]
    exact List.mergeSort_perm db.umkm _
  · rw [hremote]
    unfold umkmService.sbOrderCreatedDesc
    refine List.Pairwise.imp ?_ (List.sorted_mergeSort ?_ ?_ db.umkm)
    · intro a b hab
      simpa using hab
    · intro a b c hab hbc
      simp only [decide_eq_true_eq] at *
      exact le_trans hbc hab
    · intro a b
      simp only [Bool.or_eq_true, decide_eq_true_eq]
      exact le_total _ _
  · simp [umkmService.getAll_local, truthy]

/- ---------- C5 ---------- -/

/-- C5: when the remote backend reports an error, the read operations
`getAll` and `getById` absorb it and return an empty list or null, while
the write operations `create`, `update` and `delete` re-raise it (for
update/delete the backend is only reached when the owner id passes UUID
validation). -/
theorem remote_error_read_absorbed_write_raised (db : umkmService.RemoteDB)
    (e : String) (failUsers : Option String) (id userId : String) (uo ao : Option String)
    (payload : CreatePayload) (p : UpdatePayload) (r : Nat → Nat)
    (now srvId srvCreated : String) :
    umkmService.getAll_remote db failUsers (some e) uo ao = [] ∧
    umkmService.getById_remote db (some e) id uo = none ∧
    umkmService.create_remote db (some e) payload userId r now srvId srvCreated
      = Except.error e ∧
    (isValidUUID userId = true →
      umkmService.update_remote db (some e) id p userId now = Except.error e) ∧
    (isValidUUID userId = true →
      umkmService.delete_remote db (some e) id userId = Except.error e) := by
  refine ⟨?_, ?_, rfl, ?_, ?_⟩
  · unfold umkmService.getAll_remote
    repeat' split <;> try rfl
    all_goals simp_all
  · unfold umkmService.getById_remote
    split <;> rfl
  · intro hv
    unfold umkmService.update_remote
    rw [hv]
    rfl
  · intro hv
    unfold umkmService.delete_remote
    rw [hv]
    rfl

/-- C5 witness: a concrete failing backend call with a valid owner id. -/
theorem remote_error_semantics_witness :
    isValidUUID uuidA = true ∧
    umkmService.update_remote { umkm := [], users := [] } (some "boom") "r1" {} uuidA "now"
      = Except.error "boom" := by
  refine ⟨by decide, ?_⟩
  exact (remote_error_read_absorbed_write_raised { umkm := [], users := [] } "boom" none
    "r1" uuidA none none samplePayload {} (fun _ => 0) "now" "sid" "cr").2.2.2.1 (by decide)

/- ---------- C8 ---------- -/

/-- C8 counterexample: a successful local-mode update leaves `updated_at`
exactly as it was stored (here `2020-01-01`), with no call-time stamp. -/
theorem update_local_keeps_old_updated_at :
    umkmService.update_local
        [{ mkRec (some "r1") (some uuidA) none with updated_at := some "2020-01-01T00:00:00Z" }]
        "r1" {} uuidA
      = Except.ok
          ({ mkRec (some "r1") (some uuidA) none with updated_at := some "2020-01-01T00:00:00Z" },
           [{ mkRec (some "r1") (some uuidA) none with
              updated_at := some "2020-01-01T00:00:00Z" }]) := by
  rfl

/-- C8 amended: a successful remote-mode update stamps `updated_at` with
the call time, on the returned record (which is in the stored table); a
successful local-mode update merely spreads the payload over the stored
record, so `updated_at` keeps its stored value whenever the payload does
not itself carry one. -/
theorem update_timestamp_semantics (db : umkmService.RemoteDB) (lsData : List UMKM)
    (id userId now : String) (p : UpdatePayload) :
    (∀ rec db2, umkmService.update_remote db none id p userId now = Except.ok (rec, db2) →
      rec.updated_at = some now ∧ rec ∈ db2.umkm) ∧
    (∀ rec l2, umkmService.update_local lsData id p userId = Except.ok (rec, l2) →
      ∃ orig ∈ lsData, rec = mergeUMKM orig p ∧
        (p.updated_at = none → rec.updated_at = orig.updated_at)) := by
  constructor
  · intro rec db2 hok
    unfold umkmService.update_remote at hok
    by_cases hv : isValidUUID userId = true
    · rw [hv, if_neg (by decide)] at hok
      dsimp only at hok
      split at hok
      · rename_i m heq
        cases hok
        refine ⟨rfl, ?_⟩
        have hm : m ∈ db.umkm.filter
            (fun u => u.id == some id && u.user_id == some userId) := by
          rw [heq]
          exact List.mem_singleton.mpr rfl
        have hmem := List.mem_of_mem_filter hm
        have hpred := List.of_mem_filter hm
        refine List.mem_map.mpr ⟨m, hmem, ?_⟩
        rw [if_pos hpred]
      · exact absurd hok (by simp)
    · rw [Bool.not_eq_true] at hv
      rw [hv, if_pos (by decide)] at hok
      exact absurd hok (by simp)
  · intro rec l2 hok
    unfold umkmService.update_local at hok
    dsimp only at hok
    split at hok
    · rename_i h
      cases hok
      refine ⟨lsData.get ⟨_, h⟩, List.get_mem _ _ _, rfl, ?_⟩
      intro hp
      simp [mergeUMKM, hp]
    · exact absurd hok (by simp)

/-- C8 witness: a concrete successful remote update stamping the call
time. -/
theorem update_timestamp_semantics_witness :
    umkmService.update_remote { umkm := [mkRec (some "r1") (some uuidA) none], users := [] }
        none "r1" {} uuidA "2026-01-01T00:00:00Z"
      = Except.ok
          ({ mkRec (some "r1") (some uuidA) none with updated_at := some "2026-01-01T00:00:00Z" },
           { umkm := [{ mkRec (some "r1") (some uuidA) none with
               updated_at := some "2026-01-01T00:00:00Z" }], users := [] }) ∧
    ({ mkRec (some "r1") (some uuidA) none with
        updated_at := some "2026-01-01T00:00:00Z" } : UMKM).updated_at
      = some "2026-01-01T00:00:00Z" := by
  refine ⟨rfl, ?_⟩
  exact ((update_timestamp_semantics
      { umkm := [mkRec (some "r1") (some uuidA) none], users := [] }
      [] "r1" uuidA "2026-01-01T00:00:00Z" {}).1
    ({ mkRec (some "r1") (some uuidA) none with updated_at := some "2026-01-01T00:00:00Z" })
    ({ umkm := [{ mkRec (some "r1") (some uuidA) none with
        updated_at := some "2026-01-01T00:00:00Z" }], users := [] }) rfl).1

/- ---------- C2 ---------- -/

/-- A falsy stored value falls through `||` to the default. -/
theorem jsOr_of_falsy (o : Option String) (d : String) (h : truthy o = false) :
    jsOr o d = d := by
  cases o with
  | none => rfl
  | some s =>
    simp only [truthy] at h
    cases hse : s.isEmpty with
    | false => rw [hse] at h; exact absurd h (by decide)
    | true => simp [jsOr, hse]

/-- A string of length at least 6 is not empty. -/
theorem isEmpty_false_of_six_le (s : String) (h : ¬ s.length < 6) : s.isEmpty = false := by
  cases he : s.isEmpty
  · rfl
  · have hs : s = "" := (String.isEmpty_iff s).mp he
    subst hs
    exact absurd (by decide : ("" : String).length < 6) h

/-- With the default password and a valid jurisdiction choice, `login`
reduces to the override check on the selected predefined account. -/
theorem login_admin_default (st : Auth.AuthState) (r : Nat → Nat) (c : String)
    (a : SessionUser)
    (hca : (c = "1" ∧ a = Auth.ADMIN_RW01) ∨ (c = "2" ∧ a = Auth.ADMIN_RW04)) :
    Auth.login st "admin" "admin" c r
      = if truthy (st.admin_passwords a.id) then (false, st)
        else (true, { st with auth_user := some a }) := by
  rcases hca with ⟨hc, ha⟩ | ⟨hc, ha⟩ <;> subst hc <;> subst ha <;> rfl

/-- C2: `login("admin","admin")` with a valid jurisdiction choice and no
recorded override for the selected predefined account succeeds and makes
that privileged account the session; once a `changePassword` by that
session succeeds (recording an override), the same `login("admin",
"admin")` selecting the same account fails. -/
theorem admin_default_login_then_override (st : Auth.AuthState) (c npw now : String)
    (r r2 : Nat → Nat) (a : SessionUser)
    (hca : (c = "1" ∧ a = Auth.ADMIN_RW01) ∨ (c = "2" ∧ a = Auth.ADMIN_RW04))
    (hov : truthy (st.admin_passwords a.id) = false) :
    (Auth.login st "admin" "admin" c r).1 = true ∧
    (Auth.login st "admin" "admin" c r).2.auth_user = some a ∧
    a.role = Role.admin ∧
    ((Auth.changePassword (Auth.login st "admin" "admin" c r).2 "admin" npw now).1.1 = true →
      (Auth.login
        (Auth.changePassword (Auth.login st "admin" "admin" c r).2 "admin" npw now).2
        "admin" "admin" c r2).1 = false) := by
  have hrole : a.role = Role.admin := by
    rcases hca with ⟨-, ha⟩ | ⟨-, ha⟩ <;> subst ha <;> rfl
  have hlog := login_admin_default st r c a hca
  rw [hov] at hlog
  simp only [Bool.false_eq_true, if_false] at hlog
  refine ⟨by rw [hlog], by rw [hlog], hrole, ?_⟩
  intro hsucc
  rw [hlog] at hsucc ⊢
  have hroleb : (a.role == Role.admin) = true := by rw [hrole]; rfl
  have hcur : jsOr (st.admin_passwords a.id) Auth.DEFAULT_ADMIN_PASSWORD
      = Auth.DEFAULT_ADMIN_PASSWORD := jsOr_of_falsy _ _ hov
  have hcp : Auth.changePassword { st with auth_user := some a } "admin" npw now
      = if npw.length < 6 then
          ((false, "Password baru minimal 6 karakter"), { st with auth_user := some a })
        else if ("admin" == npw) = true then
          ((false, "Password baru harus berbeda dari password lama"),
            { st with auth_user := some a })
        else ((true, "Password berhasil diubah"),
          { st with
            auth_user := some { a with must_change_password := some false,
                                       last_password_change := some now },
            admin_passwords := fun k =>
              if k = a.id then some npw else st.admin_passwords k }) := by
    unfold Auth.changePassword
    dsimp only
    rw [if_pos hroleb, hcur]
    rw [if_neg (by decide)]
  by_cases hlen : npw.length < 6
  · rw [hcp, if_pos hlen] at hsucc
    simp at hsucc
  · by_cases heq : ("admin" == npw) = true
    · rw [hcp, if_neg hlen, if_pos heq] at hsucc
      simp at hsucc
    · rw [hcp, if_neg hlen, if_neg heq]
      have hlog2 := login_admin_default
        { st with
          auth_user := some { a with must_change_password := some false,
                                     last_password_change := some now },
          admin_passwords := fun k =>
            if k = a.id then some npw else st.admin_passwords k } r2 c a hca
      rw [hlog2]
      have htr : truthy ((fun k => if k = a.id then some npw else st.admin_passwords k) a.id)
          = true := by
        dsimp only
        rw [if_pos rfl]
        simp only [truthy, Bool.not_eq_true']
        exact isEmpty_false_of_six_le npw hlen
      dsimp only at htr ⊢
      rw [htr]
      rfl

/-- C2 witness: from a fresh state, `login("admin","admin")` selecting
RW 01 succeeds; after its session changes the password to `rahasia1`,
the same default login fails. -/
theorem admin_default_login_then_override_witness :
    (Auth.login Auth.initState "admin" "admin" "1" (fun _ => 0)).1 = true ∧
    (Auth.login
      (Auth.changePassword
        (Auth.login Auth.initState "admin" "admin" "1" (fun _ => 0)).2
        "admin" "rahasia1" "t").2
      "admin" "admin" "1" (fun _ => 0)).1 = false := by
  have h := admin_default_login_then_override Auth.initState "1" "rahasia1" "t"
    (fun _ => 0) (fun _ => 0) Auth.ADMIN_RW01 (Or.inl ⟨rfl, rfl⟩) (by rfl)
  exact ⟨h.1, h.2.2.2 (by rfl)⟩

/- ---------- C7 ---------- -/

/-- Helper: `findIdx` over an append whose first part never matches. -/
theorem findIdx_append_of_all_false {α : Type} (l1 l2 : List α) (p : α → Bool)
    (h : ∀ u ∈ l1, p u = false) :
    (l1 ++ l2).findIdx p = l1.length + l2.findIdx p := by
  induction l1 with
  | nil => simp
  | cons x xs ih =>
    rw [List.cons_append, List.findIdx_cons p x (xs ++ l2), h x (by simp),
      ih (fun u hu => h u (by simp [hu]))]
    show xs.length + l2.findIdx p + 1 = xs.length + 1 + l2.findIdx p
    omega

/-- C7: registering a username that is neither the reserved admin name
nor already present succeeds; logging in with exactly those credentials
then succeeds; and a second registration of the same username fails with
"Username sudah digunakan". -/
theorem register_then_login_once (st : Auth.AuthState) (d d2 : Auth.RegisterData)
    (r r2 r3 : Nat → Nat) (now now2 rc : String)
    (h1 : d.username ≠ "admin")
    (h2 : st.registered_users.find? (fun u => u.username == d.username) = none) :
    (Auth.register st d r now).1.1 = true ∧
    (Auth.login (Auth.register st d r now).2 d.username d.password rc r2).1 = true ∧
    (d2.username = d.username →
      (Auth.register (Auth.register st d r now).2 d2 r3 now2).1
        = (false, "Username sudah digunakan")) := by
  have h1b : (d.username == "admin") = false := by
    rw [beq_eq_false_iff_ne]
    exact h1
  have hreg : Auth.register st d r now
      = ((true, "Registrasi berhasil! Silakan login."),
         { st with registered_users := st.registered_users ++ [Auth.newUser d r now] }) := by
    unfold Auth.register
    rw [if_neg (by simp [h1b]), h2]
  have hold : ∀ u ∈ st.registered_users,
      (u.username == d.username && u.password == d.password) = false := by
    intro u hu
    have hne := List.find?_eq_none.mp h2 u hu
    have hb : (u.username == d.username) = false := Bool.eq_false_iff.mpr hne
    simp [hb]
  have hfidx : (st.registered_users ++ [Auth.newUser d r now]).findIdx
      (fun u => u.username == d.username && u.password == d.password)
      = st.registered_users.length := by
    rw [findIdx_append_of_all_false _ _ _ hold]
    rw [List.findIdx_cons]
    simp [Auth.newUser]
  refine ⟨by rw [hreg], ?_, ?_⟩
  · rw [hreg]
    unfold Auth.login
    rw [if_neg (by simp [h1b])]
    unfold Auth.loginRegistry
    dsimp only
    rw [hfidx, dif_pos (by simp)]
    simp only [List.get_eq_getElem, List.getElem_concat_length]
    have hvu : isValidUUID (Auth.newUser d r now).id = true := isValidUUID_generateUUID r
    rw [if_pos hvu]
  · intro hd2
    rw [hreg]
    unfold Auth.register
    rw [if_neg (by simp [hd2, h1b])]
    have hfind : (st.registered_users ++ [Auth.newUser d r now]).find?
        (fun u => u.username == d2.username) = some (Auth.newUser d r now) := by
      rw [List.find?_append, hd2, h2]
      simp [Auth.newUser]
    rw [hfind]

/-- C7 witness: registering "budi" on a fresh state, logging in with the
same credentials, and failing a duplicate registration. -/
theorem register_then_login_once_witness :
    (Auth.register Auth.initState
      { username := "budi", password := "rahasia1", name := "Budi", rw := "01" }
      (fun _ => 0) "t").1.1 = true ∧
    (Auth.login (Auth.register Auth.initState
      { username := "budi", password := "rahasia1", name := "Budi", rw := "01" }
      (fun _ => 0) "t").2 "budi" "rahasia1" "1" (fun _ => 1)).1 = true ∧
    (Auth.register (Auth.register Auth.initState
      { username := "budi", password := "rahasia1", name := "Budi", rw := "01" }
      (fun _ => 0) "t").2
      { username := "budi", password := "lain123", name := "Budi Dua", rw := "04" }
      (fun _ => 2) "t2").1 = (false, "Username sudah digunakan") := by
  have h := register_then_login_once Auth.initState
    { username := "budi", password := "rahasia1", name := "Budi", rw := "01" }
    { username := "budi", password := "lain123", name := "Budi Dua", rw := "04" }
    (fun _ => 0) (fun _ => 1) (fun _ => 2) "t" "t2" "1" (by decide) rfl
  exact ⟨h.1, h.2.1, h.2.2 rfl⟩

/- ---------- C10 ---------- -/

/-- C10: `changePassword` under a privileged session never touches the
registered-users registry and changes no override entry other than the
caller's own; under a non-privileged session it never touches the
override map or the session slot, and every registry entry is either
unchanged or is the caller's own entry rewritten with the new password
and a fresh change timestamp. -/
theorem changePassword_frame (st : Auth.AuthState) (s : SessionUser) (old np now : String)
    (hs : st.auth_user = some s) :
    (s.role = Role.admin →
      (Auth.changePassword st old np now).2.registered_users = st.registered_users ∧
      ∀ k, k ≠ s.id →
        (Auth.changePassword st old np now).2.admin_passwords k = st.admin_passwords k) ∧
    (s.role ≠ Role.admin →
      (Auth.changePassword st old np now).2.admin_passwords = st.admin_passwords ∧
      (Auth.changePassword st old np now).2.auth_user = st.auth_user ∧
      ∀ j : Nat,
        ((Auth.changePassword st old np now).2.registered_users[j]?
            = st.registered_users[j]? ∨
         ∃ u, st.registered_users[j]? = some u ∧ u.id = s.id ∧
           (Auth.changePassword st old np now).2.registered_users[j]?
             = some { u with password := np, last_password_change := some now })) := by
  constructor
  · intro hrole
    have hb : (s.role == Role.admin) = true := by rw [hrole]; rfl
    unfold Auth.changePassword
    rw [hs]
    dsimp only
    rw [if_pos hb]
    split_ifs with h1 h2 h3
    · exact ⟨rfl, fun k hk => rfl⟩
    · exact ⟨rfl, fun k hk => rfl⟩
    · exact ⟨rfl, fun k hk => rfl⟩
    · refine ⟨rfl, fun k hk => ?_⟩
      dsimp only
      rw [if_neg hk]
  · intro hrole
    have hb : (s.role == Role.admin) = false := by
      rw [Bool.eq_false_iff]
      intro hT
      exact hrole (by simpa using hT)
    unfold Auth.changePassword
    rw [hs]
    dsimp only
    rw [if_neg (by simp [hb])]
    split
    · split_ifs with h1 h2 h3
      · exact ⟨rfl, hs, fun j => Or.inl rfl⟩
      · exact ⟨rfl, hs, fun j => Or.inl rfl⟩
      · exact ⟨rfl, hs, fun j => Or.inl rfl⟩
      · rename_i h
        refine ⟨rfl, rfl, fun j => ?_⟩
        by_cases hij : st.registered_users.findIdx (fun ru => ru.id == s.id) = j
        · subst hij
          right
          refine ⟨st.registered_users.get
            ⟨st.registered_users.findIdx (fun ru => ru.id == s.id), h⟩, ?_, ?_, ?_⟩
          · simp [List.getElem?_eq_getElem h]
          · have hp := @List.findIdx_getElem _ _ _ h
            simpa using hp
          · simp [List.getElem?_set_self, h]
        · left
          exact List.getElem?_set_ne hij
    · exact ⟨rfl, hs, fun j => Or.inl rfl⟩

/-- C10 witness: an admin session changing its password leaves the
(empty) registry empty and other override keys untouched. -/
theorem changePassword_frame_witness :
    (Auth.changePassword
      { registered_users := [], auth_user := some Auth.ADMIN_RW01,
        admin_passwords := fun _ => none } "admin" "rahasia1" "t").2.registered_users = [] ∧
    (Auth.changePassword
      { registered_users := [], auth_user := some Auth.ADMIN_RW01,
        admin_passwords := fun _ => none } "admin" "rahasia1" "t").2.admin_passwords "other"
      = none := by
  have h := (changePassword_frame
    { registered_users := [], auth_user := some Auth.ADMIN_RW01,
      admin_passwords := fun _ => none } Auth.ADMIN_RW01 "admin" "rahasia1" "t" rfl).1 rfl
  exact ⟨h.1, h.2 "other" (by decide)⟩

/- ---------- C9 ---------- -/

/-- The session-layer invariant: every registry entry has role "user",
and any admin-role session is one of the two predefined privileged
identities. -/
def AuthInv (st : Auth.AuthState) : Prop :=
  (∀ u ∈ st.registered_users, u.role = Role.user) ∧
  (∀ s, st.auth_user = some s → s.role = Role.admin →
    s.id = Auth.ADMIN_RW01.id ∨ s.id = Auth.ADMIN_RW04.id)

theorem authInv_register (st : Auth.AuthState) (d : Auth.RegisterData) (r : Nat → Nat)
    (now : String) (h : AuthInv st) : AuthInv (Auth.register st d r now).2 := by
  unfold Auth.register
  split
  · exact h
  · split
    · exact h
    · constructor
      · intro u hu
        rcases List.mem_append.mp hu with h1 | h2
        · exact h.1 u h1
        · rw [List.mem_singleton.mp h2]
          rfl
      · intro s hsome
        exact h.2 s hsome

theorem authInv_logout (st : Auth.AuthState) (h : AuthInv st) : AuthInv (Auth.logout st) :=
  ⟨h.1, fun s hsome => by simp [Auth.logout] at hsome⟩

theorem authInv_changePassword (st : Auth.AuthState) (old np now : String)
    (h : AuthInv st) : AuthInv (Auth.changePassword st old np now).2 := by
  unfold Auth.changePassword
  cases hu : st.auth_user with
  | none => exact h
  | some u =>
    dsimp only
    by_cases hb : (u.role == Role.admin) = true
    · rw [if_pos hb]
      split_ifs with h1 h2 h3
      · exact h
      · exact h
      · exact h
      · constructor
        · exact h.1
        · intro s hsome hrole
          injection hsome with hx
          subst hx
          exact h.2 u hu hrole
    · rw [if_neg hb]
      split
      · rename_i hlt
        split_ifs with h1 h2 h3
        · exact h
        · exact h
        · exact h
        · constructor
          · intro x hx
            rcases List.mem_or_eq_of_mem_set hx with hx2 | rfl
            · exact h.1 x hx2
            · exact h.1 (st.registered_users.get
                ⟨List.findIdx (fun ru => ru.id == u.id) st.registered_users, hlt⟩)
                (List.get_mem _ _ _)
          · intro s hsome hrole
            injection hsome with hx
            subst hx
            exact h.2 u hu hrole
      · exact h

theorem authInv_loginRegistry (st : Auth.AuthState) (username password : String)
    (r : Nat → Nat) (h : AuthInv st) :
    AuthInv (Auth.loginRegistry st username password r).2 := by
  unfold Auth.loginRegistry
  dsimp only
  split
  · rename_i hlt
    split_ifs with hvalid
    · constructor
      · exact h.1
      · intro s hsome hrole
        injection hsome with hx
        subst hx
        have hfu := h.1 _ (List.get_mem st.registered_users _ hlt)
        dsimp only [StoredUser.toSession] at hrole
        rw [hfu] at hrole
        exact absurd hrole (by decide)
    · constructor
      · intro x hx
        rcases List.mem_or_eq_of_mem_set hx with hx2 | rfl
        · rcases List.mem_or_eq_of_mem_set hx2 with hx3 | rfl
          · exact h.1 x hx3
          · exact h.1 (st.registered_users.get
              ⟨List.findIdx (fun u => u.username == username && u.password == password)
                st.registered_users, hlt⟩) (List.get_mem _ _ _)
        · exact h.1 (st.registered_users.get
            ⟨List.findIdx (fun u => u.username == username && u.password == password)
              st.registered_users, hlt⟩) (List.get_mem _ _ _)
      · intro s hsome hrole
        injection hsome with hx
        subst hx
        have hfu := h.1 _ (List.get_mem st.registered_users _ hlt)
        dsimp only [StoredUser.toSession] at hrole
        rw [hfu] at hrole
        exact absurd hrole (by decide)
  · exact h

theorem authInv_login (st : Auth.AuthState) (username password rwChoice : String)
    (r : Nat → Nat) (h : AuthInv st) :
    AuthInv (Auth.login st username password rwChoice r).2 := by
  unfold Auth.login
  by_cases h1 : (username == "admin") = true
  · rw [if_pos h1]
    by_cases h2 : (password == Auth.DEFAULT_ADMIN_PASSWORD) = true
    · rw [if_pos h2]
      by_cases h3 : (rwChoice == "1" || rwChoice == "2") = true
      · rw [if_pos h3]
        dsimp only
        split
        · rename_i a ha
          split_ifs with hov
          · exact h
          · constructor
            · exact h.1
            · intro s hsome hrole
              injection hsome with hx
              subst hx
              have hmem := List.mem_of_find?_eq_some ha
              simp only [Auth.ADMIN_USERS, List.mem_cons, List.mem_singleton,
                List.not_mem_nil, or_false] at hmem
              rcases hmem with rfl | rfl
              · exact Or.inl rfl
              · exact Or.inr rfl
        · exact authInv_loginRegistry st username password r h
      · rw [if_neg h3]
        exact h
    · rw [if_neg h2]
      split
      · rename_i a ha
        constructor
        · exact h.1
        · intro s hsome hrole
          injection hsome with hx
          subst hx
          have hmem := List.mem_of_find?_eq_some ha
          simp only [Auth.ADMIN_USERS, List.mem_cons, List.mem_singleton,
            List.not_mem_nil, or_false] at hmem
          rcases hmem with rfl | rfl
          · exact Or.inl rfl
          · exact Or.inr rfl
      · exact authInv_loginRegistry st username password r h
  · rw [if_neg h1]
    exact authInv_loginRegistry st username password r h

theorem authInv_step (st : Auth.AuthState) (op : Auth.AuthOp) (h : AuthInv st) :
    AuthInv (Auth.step st op) := by
  cases op with
  | reg d r now => exact authInv_register st d r now h
  | signIn u p c r => exact authInv_login st u p c r h
  | signOut => exact authInv_logout st h
  | changePw o n t => exact authInv_changePassword st o n t h

/-- C9: starting from an empty registry (no session, no overrides), any
sequence of register / login / logout / changePassword operations keeps
these invariants: every registry entry has role "user"; any admin-role
session is one of the two predefined privileged identities (ids ending
440001 and 440004); `register` only ever appends role-"user" entries;
and the registry-scan part of `login` never installs an admin-role
session when the registry holds only role-"user" entries. -/
theorem admin_session_invariant (ops : List Auth.AuthOp) :
    ((∀ u ∈ (Auth.run Auth.initState ops).registered_users, u.role = Role.user) ∧
     (∀ s, (Auth.run Auth.initState ops).auth_user = some s → s.role = Role.admin →
        s.id = Auth.ADMIN_RW01.id ∨ s.id = Auth.ADMIN_RW04.id)) ∧
    (∀ st d r now, ∀ u ∈ (Auth.register st d r now).2.registered_users,
        u ∈ st.registered_users ∨ u.role = Role.user) ∧
    (∀ st u p r, (∀ x ∈ st.registered_users, x.role = Role.user) →
        ∀ s, (Auth.loginRegistry st u p r).2.auth_user = some s →
          s.role = Role.admin → st.auth_user = some s) := by
  refine ⟨?_, ?_, ?_⟩
  · have hrun : ∀ (ops₂ : List Auth.AuthOp) (st : Auth.AuthState),
        AuthInv st → AuthInv (Auth.run st ops₂) := by
      intro ops₂
      induction ops₂ with
      | nil => intro st hst; exact hst
      | cons op rest ih => intro st hst; exact ih _ (authInv_step st op hst)
    exact hrun ops Auth.initState
      ⟨by intro u hu; simp [Auth.initState] at hu,
       by intro s hs; simp [Auth.initState] at hs⟩
  · intro st d r now u hu
    unfold Auth.register at hu
    split at hu
    · exact Or.inl hu
    · split at hu
      · exact Or.inl hu
      · rcases List.mem_append.mp hu with h1 | h2
        · exact Or.inl h1
        · rw [List.mem_singleton.mp h2]
          exact Or.inr rfl
  · intro st u p r hall s hsome hrole
    unfold Auth.loginRegistry at hsome
    dsimp only at hsome
    split at hsome
    · rename_i hlt
      split_ifs at hsome with hvalid
      · exfalso
        injection hsome with hx
        subst hx
        have hfu := hall _ (List.get_mem st.registered_users _ hlt)
        dsimp only [StoredUser.toSession] at hrole
        rw [hfu] at hrole
        exact absurd hrole (by decide)
      · exfalso
        injection hsome with hx
        subst hx
        have hfu := hall _ (List.get_mem st.registered_users _ hlt)
        dsimp only [StoredUser.toSession] at hrole
        rw [hfu] at hrole
        exact absurd hrole (by decide)
    · exact hsome

/-- C9 witness: after a concrete admin login from the initial state, the
stored admin session is pinned to a predefined identity. -/
theorem admin_session_invariant_witness :
    (Auth.run Auth.initState [Auth.AuthOp.signIn "admin" "admin" "1" (fun _ => 0)]).auth_user
      = some Auth.ADMIN_RW01 ∧
    (Auth.ADMIN_RW01.id = Auth.ADMIN_RW01.id ∨ Auth.ADMIN_RW01.id = Auth.ADMIN_RW04.id) := by
  refine ⟨rfl, ?_⟩
  exact ((admin_session_invariant [Auth.AuthOp.signIn "admin" "admin" "1" (fun _ => 0)]).1).2
    Auth.ADMIN_RW01 rfl rfl
